import Mathlib

/-!
Verification of the cursor_automation conversation/session lifecycle subsystem
(scripts/automation/src/cursor_automation): a shallow embedding of models.py,
thread_manager.py, github_client.py, the outcome dispatch of daemon.py,
agent_client.py and utils.py, with theorems about the behaviour of these
operations.  File I/O is modelled by explicit state records: the JSON files in
the log directory become association lists keyed by file name, and each write
the code performs becomes a functional update (with an explicit write-event
trace where the order of durable writes matters).
-/

namespace CursorAutomation

/-- Association-list lookup, modelling a Python dict read (`d.get(k)`). -/
def alookup (k : String) : List (String × α) → Option α
  | [] => none
  | (k₁, v) :: rest => if k₁ = k then some v else alookup k rest

/-- Association-list insert-or-replace, modelling a Python dict assignment
(`d[k] = v`) or an overwriting file write. -/
def aInsert (k : String) (v : α) : List (String × α) → List (String × α)
  | [] => [(k, v)]
  | (k₁, v₁) :: rest => if k₁ = k then (k, v) :: rest else (k₁, v₁) :: aInsert k v rest

/-! Section: Character and string helpers shared by the embeddings

These model the exact Python primitives the source uses (`str.lower`,
`str.strip`, `str.rstrip`, `in`, `str.replace`, and the few regular
expressions), restricted to ASCII text, which is all the source data of the
claims uses. -/

/-- Python regex `\w` (word character), ASCII fragment. -/
def isWordChar (c : Char) : Bool := c.isAlpha || c.isDigit || c = '_'

/-- Python regex `\s` / `str.strip` whitespace, ASCII fragment
(space, tab, newline, carriage return, vertical tab, form feed). -/
def isPySpace (c : Char) : Bool :=
  c = ' ' || c = '\t' || c = '\n' || c = '\r' || c = '\x0b' || c = '\x0c'

/-- Does the second list start with the first list (pattern) -/
def leadsWith : List Char → List Char → Bool
  | [], _ => true
  | _ :: _, [] => false
  | p :: ps, c :: cs => p = c && leadsWith ps cs

/-- Substring test on character lists, modelling the Python `in` operator. -/
def containsSubL (pat : List Char) : List Char → Bool
  | [] => leadsWith pat []
  | c :: cs => leadsWith pat (c :: cs) || containsSubL pat cs

/-- Substring test on strings, modelling the Python `in` operator. -/
def containsSub (pat s : String) : Bool := containsSubL pat.data s.data

/-- Python `str.lower`, ASCII fragment. -/
def lowerS (s : String) : String := ⟨s.data.map Char.toLower⟩

/-- Python `str.rstrip()`. -/
def rstripS (s : String) : String := ⟨(s.data.reverse.dropWhile isPySpace).reverse⟩

/-- Python `str.strip()`. -/
def stripS (s : String) : String :=
  ⟨((s.data.dropWhile isPySpace).reverse.dropWhile isPySpace).reverse⟩

/-- One fuelled step list for Python `str.replace`: replaces every
non-overlapping occurrence of `pat` left to right.  The fuel is the length of
the scanned list, which bounds the recursion. -/
def replaceAllAux (pat sub : List Char) : List Char → Nat → List Char
  | l, 0 => l
  | l, fuel + 1 =>
    if pat ≠ [] && leadsWith pat l then
      sub ++ replaceAllAux pat sub (l.drop pat.length) fuel
    else
      match l with
      | [] => []
      | c :: cs => c :: replaceAllAux pat sub cs fuel

/-- Python `s.replace(pat, sub)` for a non-empty pattern (the source only
replaces non-empty placeholder tokens). -/
def pyReplace (s pat sub : String) : String :=
  if pat.data = [] then s else ⟨replaceAllAux pat.data sub.data s.data s.data.length⟩

/-! Section: models.py -/

/-- models.py `Message`: a single message in a conversation thread.  The
`role` field is a pydantic `Literal` whose validation happens on construction
from JSON (see `validRole` and `threadValidate`); timestamps are abstracted to
a number. -/
structure Message where
  role : String
  author : String
  content : String
  location : String := ""
  code_snippet : String := ""
  function_name : String := ""
  timestamp : Nat := 0
deriving Repr, DecidableEq

/-- models.py `Thread`: a conversation thread for PR feedback.  `status` is a
pydantic `Literal` restricted to active/completed/failed on construction from
JSON; plain attribute assignment (as in `set_thread_status`) bypasses that
validation, so the in-memory and on-disk values are arbitrary strings here. -/
structure Thread where
  thread_id : String
  pr_number : Int
  cursor_session_id : Option String := none
  created_at : Nat := 0
  status : String := "active"
  messages : List Message := []
deriving Repr, DecidableEq

/-- The pydantic `Literal` accepted by `Thread.status` on construction. -/
def validStatus (s : String) : Bool := s = "active" || s = "completed" || s = "failed"

/-- The pydantic `Literal` accepted by `Message.role` on construction. -/
def validRole (r : String) : Bool := r = "user" || r = "assistant"

/-- Pydantic validation performed by `Thread(**data)` when a thread is parsed
back from JSON: the status literal and each nested message role literal are
checked; any violation raises, which `load_thread` catches and turns into
`None`. -/
def threadValidate (t : Thread) : Option Thread :=
  if validStatus t.status && t.messages.all (fun m => validRole m.role) then some t else none

/-- models.py `AutomationState` entry of the `threads` dict: the snapshot
recorded per thread id (`pr_number`, `created_at`, `status`). -/
structure ThreadMeta where
  pr_number : Int
  created_at : Nat
  status : String
deriving Repr, DecidableEq

/-! Section: thread_manager.py -/

/-- The durable data owned by `ThreadManager`: the per-thread JSON files
(keyed by thread id, `log_dir/<thread_id>.json`) and the two dictionaries of
`AutomationState` that matter here (`comment_to_thread` and `threads`;
`processed_comments` is never read by the claims).  In-memory state and disk
agree except between the two writes of `get_or_create_thread`, which is
modelled by the explicit write-event trace. -/
structure TMState where
  files : List (String × Thread) := []
  comment_to_thread : List (String × String) := []
  threads : List (String × ThreadMeta) := []
deriving Repr, DecidableEq

/-- The empty state a fresh `ThreadManager` starts from. -/
def tmEmpty : TMState := {}

/-- thread_manager.py `load_thread` (lines 69-91): read the thread file and
parse it with `Thread(**data)`; a missing file or any parse/validation
exception yields `None`. -/
def load_thread (tm : TMState) (thread_id : String) : Option Thread :=
  (alookup thread_id tm.files).bind threadValidate

/-- thread_manager.py `save_thread` (lines 93-106): overwrite the thread file
named by `thread.thread_id` with the model dump. -/
def save_thread (tm : TMState) (thread : Thread) : TMState :=
  { tm with files := aInsert thread.thread_id thread tm.files }

/-- thread_manager.py `get_thread_for_comment` (lines 108-118). -/
def get_thread_for_comment (tm : TMState) (comment_id : Int) : Option String :=
  alookup (toString comment_id) tm.comment_to_thread

/-- A durable write performed by `get_or_create_thread`, in program order:
`stateWrite` is `_save_state()` committing the whole automation-state file,
`threadWrite` is `save_thread` committing one thread file. -/
inductive WriteEvent where
  | stateWrite (comment_to_thread : List (String × String))
      (threads : List (String × ThreadMeta))
  | threadWrite (thread : Thread)
deriving Repr, DecidableEq

/-- Apply one durable write to a (possibly crashed-and-reloaded) state. -/
def applyWrite (tm : TMState) : WriteEvent → TMState
  | .stateWrite m i => { tm with comment_to_thread := m, threads := i }
  | .threadWrite t => save_thread tm t

/-- Replay a sequence of durable writes. -/
def tmAfterWrites (tm : TMState) (evs : List WriteEvent) : TMState :=
  evs.foldl applyWrite tm

/-- The thread-id format of thread_manager.py line 141:
`f"pr-\x7bpr_number\x7d-thread-\x7btimestamp\x7d"`. -/
def newThreadId (pr_number : Int) (now : Nat) : String :=
  "pr-" ++ toString pr_number ++ "-thread-" ++ toString now

/-- thread_manager.py `get_or_create_thread` (lines 120-158).  Parameters are
exactly the Python signature (`pr_number`, `comment_id`) plus the value of
`int(time.time())` made explicit as `now`.  Returns the thread, the state
after both writes, and the ordered durable-write trace: the source registers
the mapping and calls `_save_state()` first (lines 145-152) and saves the
thread file second (line 155).  The existing-mapping branch reproduces the
Python truthiness test `if existing_thread_id:` and the `if thread:` retry
fall-through. -/
def get_or_create_thread (tm : TMState) (pr_number : Int) (comment_id : Int)
    (now : Nat) : Thread × TMState × List WriteEvent :=
  let create : Thread × TMState × List WriteEvent :=
    let thread_id := newThreadId pr_number now
    let thread : Thread := { thread_id := thread_id, pr_number := pr_number, created_at := now }
    let cmap := aInsert (toString comment_id) thread_id tm.comment_to_thread
    let tidx := aInsert thread_id ⟨pr_number, now, "active"⟩ tm.threads
    let tm₁ : TMState := { tm with comment_to_thread := cmap, threads := tidx }
    let tm₂ := save_thread tm₁ thread
    (thread, tm₂, [.stateWrite cmap tidx, .threadWrite thread])
  match get_thread_for_comment tm comment_id with
  | some existing_thread_id =>
    if existing_thread_id = "" then create
    else
      match load_thread tm existing_thread_id with
      | some thread => (thread, tm, [])
      | none => create
  | none => create

/-- thread_manager.py `add_message` (lines 160-175): load the thread; when it
is absent only an error is logged and the function returns with no effect;
otherwise the message is appended and the thread saved immediately. -/
def add_message (tm : TMState) (thread_id : String) (message : Message) : TMState :=
  match load_thread tm thread_id with
  | none => tm
  | some thread => save_thread tm { thread with messages := thread.messages ++ [message] }

/-- Fold of `add_message` over a list of messages, for the append-N property. -/
def addAllMessages (tm : TMState) (thread_id : String) (msgs : List Message) : TMState :=
  msgs.foldl (fun s m => add_message s thread_id m) tm

/-- thread_manager.py `get_session_id` (lines 177-188). -/
def get_session_id (tm : TMState) (thread_id : String) : Option String :=
  match load_thread tm thread_id with
  | none => none
  | some thread => thread.cursor_session_id

/-- thread_manager.py `store_session_id` (lines 190-205). -/
def store_session_id (tm : TMState) (thread_id session_id : String) : TMState :=
  match load_thread tm thread_id with
  | none => tm
  | some thread => save_thread tm { thread with cursor_session_id := some session_id }

/-- thread_manager.py `set_thread_status` (lines 310-332): load, assign the
status without pydantic validation, save the thread file, and update the
status snapshot in the automation state when the id is present there. -/
def set_thread_status (tm : TMState) (thread_id status : String) : TMState :=
  match load_thread tm thread_id with
  | none => tm
  | some thread =>
    let tm₁ := save_thread tm { thread with status := status }
    match alookup thread_id tm₁.threads with
    | some meta => { tm₁ with threads := aInsert thread_id { meta with status := status } tm₁.threads }
    | none => tm₁

/-! Section: thread_manager.py `extract_code_snippet` (lines 207-255)

The file system is modelled as an association list from path to the list of
lines `readlines()` returns.  A missing path is the `not path.exists()`
branch.  The declaration scan indexes `lines[i]` for `i` from `line_num - 1`
downward without a bound check, so a target line past the end of the file
raises `IndexError`, which the enclosing `try` turns into `("", "")`. -/

/-- Width-3 right-justified decimal, Python `format(n, "3d")` for n ≥ 0. -/
def pad3 (n : Nat) : String :=
  if n < 10 then "  " ++ toString n else if n < 100 then " " ++ toString n else toString n

/-- The source marker string: the file literally contains the two characters
U+00E2 U+2020 (a mojibake arrow committed into the source), surrounded by
spaces. -/
def snippetMarker : String := " â† "

/-- One rendered snippet line: `f"{i+1:3d}|{marker}{lines[i].rstrip()}"` with
the marker on the 0-based index `line_num - 1`. -/
def fmtLine (lines : List String) (line_num : Int) (i : Nat) : String :=
  let marker := if (i : Int) = line_num - 1 then snippetMarker else "   "
  pad3 (i + 1) ++ "|" ++ marker ++ rstripS (lines.getD i "")

/-- The Swift declaration-opening regex
`^(func|class|struct|enum|protocol|extension)\s+` applied by `re.match` to a
stripped line: one of the keywords at the start, followed by at least one
whitespace character. -/
def declMatches (l : List Char) : Bool :=
  ["func", "class", "struct", "enum", "protocol", "extension"].any fun kw =>
    leadsWith kw.data l &&
      match (l.drop kw.length).head? with
      | some c => isPySpace c
      | none => false

/-- The backward scan `for i in range(line_num - 1, -1, -1)` that reports the
first (nearest preceding, target line included) stripped line matching the
declaration pattern, or the empty string. -/
def scanDecl (lines : List String) : Nat → String
  | 0 =>
    let line := stripS (lines.getD 0 "")
    if declMatches line.data then line else ""
  | i + 1 =>
    let line := stripS (lines.getD (i + 1) "")
    if declMatches line.data then line else scanDecl lines i

/-- thread_manager.py `extract_code_snippet` (lines 207-255); `line_num` and
`context_lines` are the Python ints of the signature. -/
def extract_code_snippet (fs : List (String × List String)) (file_path : String)
    (line_num : Int) (context_lines : Int := 10) : String × String :=
  match alookup file_path fs with
  | none => ("", "")
  | some lines =>
    let total : Int := lines.length
    let start : Int := max 0 (line_num - context_lines - 1)
    let stop : Int := min total (line_num + context_lines)
    let idxs : List Nat := (List.range (stop - start).toNat).map (fun k => start.toNat + k)
    let snippet := String.intercalate "\n" (idxs.map (fmtLine lines line_num))
    if line_num - 1 ≥ total then ("", "")
    else
      let function_name := if line_num ≥ 1 then scanDecl lines (line_num - 1).toNat else ""
      (snippet, function_name)

/-! Section: utils.py -/

/-- Drop the leading run of `\w` characters. -/
def dropWordRun : List Char → List Char
  | [] => []
  | c :: cs => if isWordChar c then dropWordRun cs else c :: cs

/-- Drop the leading run of `\s` characters. -/
def dropSpaceRun : List Char → List Char
  | [] => []
  | c :: cs => if isPySpace c then dropSpaceRun cs else c :: cs

/-- Does the regex `@\w+\s+(alt₁|...)` match at this exact position: an `@`,
one or more word characters, one or more whitespace characters, then one of
the alternative literals.  Because `\w` and `\s` are disjoint and none of the
alternatives starts with whitespace, backtracking adds nothing and the greedy
runs are exact. -/
def mentionKwAt (alts : List String) : List Char → Bool
  | '@' :: c :: cs =>
    if isWordChar c then
      match dropWordRun cs with
      | d :: ds =>
        if isPySpace d then alts.any (fun a => leadsWith a.data (dropSpaceRun ds))
        else false
      | [] => false
    else false
  | _ => false

/-- `re.search` of `@\w+\s+(alt₁|...)`: try the match at every position. -/
def searchMention (alts : List String) : List Char → Bool
  | [] => false
  | c :: cs => mentionKwAt alts (c :: cs) || searchMention alts cs

/-- utils.py `parse_command` (lines 96-116): lower-case the body, return
`plan` when `@\w+\s+plan` matches, else `implement` when
`@\w+\s+(fix|implement)` matches, else `ask`. -/
def parse_command (body : String) : String :=
  let body_lower := lowerS body
  if searchMention ["plan"] body_lower.data then "plan"
  else if searchMention ["fix", "implement"] body_lower.data then "implement"
  else "ask"

/-! Section: github_client.py -/

/-- github_client.py `has_processed_reactions` (lines 168-180): a comment is
fully processed when its reaction set contains both markers. -/
def has_processed_reactions (reactions : List String) : Bool :=
  reactions.contains "eyes" && reactions.contains "rocket"

/-! Section: daemon.py `process_comment` outcome dispatch (lines 204-326)

The network side effects of the dispatch on the invocation status are recorded
as an ordered action trace.  `posted_id` is the comment id returned by
`post_reply`/`post_comment` (`None` when posting failed).  The dispatch is
modelled on its own because the head of `process_comment` (line 142) crashes
before reaching it: it reads `comment.in_reply_to_id`, a field the `Comment`
model does not define, and passes three arguments to the two-argument
`get_or_create_thread` (see the C1 theorem). -/

/-- The identity of a comment as the dispatch uses it (`comment.id`,
`comment.type`). -/
structure CommentLite where
  id : Int
  ctype : String
deriving Repr, DecidableEq

/-- One externally visible action of the dispatch. -/
inductive GhAction where
  | addReaction (comment_id : Int) (comment_type : String) (reaction : String)
  | postReply (pr_number : Int) (parent_id : Int)
  | postComment (pr_number : Int)
  | addMessageAction (thread_id : String)
  | setStatusAction (thread_id : String) (status : String)
deriving Repr, DecidableEq

/-- The reply-target selection shared by all three branches: review comments
get an in-thread reply, the rest a PR-level comment. -/
def postAction (pr_number : Int) (c : CommentLite) : GhAction :=
  if c.ctype = "review" then .postReply pr_number c.id else .postComment pr_number

/-- The eyes/rocket pair added to the bot comment when posting returned an id
(`if agent_comment_id:`). -/
def botCommentReactions (c : CommentLite) (posted_id : Option Int) : List GhAction :=
  match posted_id with
  | some pid => [.addReaction pid c.ctype "eyes", .addReaction pid c.ctype "rocket"]
  | none => []

/-- daemon.py lines 208-326: the action trace of the status dispatch of
`process_comment`, in program order.  Status 0 = success, 2 = manual
intervention, anything else = hard failure. -/
def handle_outcome (pr_number : Int) (c : CommentLite) (thread_id : String)
    (status : Nat) (posted_id : Option Int) : List GhAction :=
  if status = 0 then
    [.addMessageAction thread_id, postAction pr_number c]
      ++ botCommentReactions c posted_id
      ++ [.addReaction c.id c.ctype "rocket", .setStatusAction thread_id "completed"]
  else if status = 2 then
    [.addReaction c.id c.ctype "confused", postAction pr_number c]
      ++ botCommentReactions c posted_id
      ++ [.addReaction c.id c.ctype "rocket", .setStatusAction thread_id "pending"]
  else
    [.addReaction c.id c.ctype "-1", .addReaction c.id c.ctype "rocket",
        postAction pr_number c]
      ++ botCommentReactions c posted_id
      ++ [.setStatusAction thread_id "failed"]

/-- daemon.py line 138: the seen marker added to the original comment before
the agent is invoked. -/
def seenReactionAction (c : CommentLite) : GhAction := .addReaction c.id c.ctype "eyes"

/-- The reactions a trace adds to the original comment, in order. -/
def reactionsOnComment (c : CommentLite) (trace : List GhAction) : List String :=
  trace.filterMap fun a =>
    match a with
    | .addReaction i ty r => if i = c.id && ty = c.ctype then some r else none
    | _ => none

/-! Section: agent_client.py `invoke_agent` (lines 51-259)

The Cursor CLI subprocess is the external `AssistantRunner`; its behaviour in
one invocation is an environment value: the outcome of the resume attempt and
the outcome of the create-new-session path.  Audit-file writes
(`context.md`, `agent-request.json`, `agent-response.txt`, `error.log`) carry
no information the claims consult and are elided; the combined-prompt file
content at each dispatch is recorded in the event trace because the claims are
about it. -/

/-- Outcome of `_create_new_session` (create chat, then send): success with a
response and the session id from `create-chat` stdout, or one of the exception
classes the `try` in `invoke_agent` distinguishes
(`subprocess.CalledProcessError` with its error text, `FileNotFoundError`,
`PermissionError`, or any other exception with its message and type name). -/
inductive CreateOutcome where
  | ok (response : String) (session_id : String)
  | calledProcessError (error_output : String)
  | fileNotFoundError
  | permissionError
  | otherError (message : String) (error_type : String)
deriving Repr, DecidableEq

/-- The external behaviour and configuration of one `invoke_agent` call:
instruction templates (`template_dir` contents), whether the branch checkout
succeeds, the resume outcome (`some response` on success, `none` when
`_resume_session` raises), and the create-session outcome. -/
structure AgentEnv where
  templates : List (String × String) := []
  checkoutOk : Bool := true
  resumeOutcome : Option String := none
  createOutcome : CreateOutcome := .fileNotFoundError
  branch : String := "main"
  work_dir : String := "wd"
deriving Repr, DecidableEq

/-- One dispatch to the assistant subprocess, with the combined-prompt file
content at that moment. -/
inductive AgentEvent where
  | resumeAttempt (session_id : String) (prompt : String)
  | createAttempt (prompt : String)
deriving Repr, DecidableEq

/-- The prompt a dispatch event carried. -/
def promptOfEvent : AgentEvent → String
  | .resumeAttempt _ p => p
  | .createAttempt p => p

/-- The result of `invoke_agent`: the returned `(response, status)` pair, the
thread-manager state after any `store_session_id`, and the dispatch trace. -/
structure InvokeOut where
  response : String
  status : Nat
  tm : TMState
  events : List AgentEvent
deriving Repr, DecidableEq

/-- agent_client.py `build_instructions` (lines 284-331): placeholder
interpolation of one template. -/
def applyPlaceholders (pr_number : Int) (thread_id command branch timestamp
    content : String) : String :=
  let c₁ := pyReplace content "\x7b\x7bPR_NUMBER\x7d\x7d" (toString pr_number)
  let c₂ := pyReplace c₁ "\x7b\x7bTHREAD_ID\x7d\x7d" thread_id
  let c₃ := pyReplace c₂ "\x7b\x7bBRANCH\x7d\x7d" branch
  let c₄ := pyReplace c₃ "\x7b\x7bMODE\x7d\x7d" command
  pyReplace c₄ "\x7b\x7bTIMESTAMP\x7d\x7d" timestamp

/-- agent_client.py `build_instructions` (lines 284-331): the header template
is read only for a new session; missing templates are skipped with a warning;
the found parts are joined with a blank line. -/
def build_instructions (env : AgentEnv) (pr_number : Int) (thread_id command : String)
    (is_new_session : Bool) (timestamp : String) : String :=
  let template_names :=
    if is_new_session then ["instructions-header.md", "instructions-" ++ command ++ ".md"]
    else ["instructions-" ++ command ++ ".md"]
  let parts := template_names.filterMap fun name =>
    match alookup name env.templates with
    | some content =>
      some (applyPlaceholders pr_number thread_id command env.branch timestamp content)
    | none => none
  String.intercalate "\n\n" parts

/-- agent_client.py line 139: the combined instructions-plus-context prompt. -/
def combinedPrompt (instructions context : String) : String :=
  "# Instructions\n\n" ++ instructions ++ "\n\n---\n\n# Context\n\n" ++ context

/-- agent_client.py lines 108-133: the context used when a session id exists —
the minimal last-user-message rendering, falling back to the full context when
the thread does not load, has no messages, or its last message is not from the
user. -/
def contextToUse (tm : TMState) (thread_id context : String) : String :=
  match load_thread tm thread_id with
  | some thread =>
    match thread.messages.getLast? with
    | some last_message =>
      if last_message.role = "user" then
        let m₀ := "New request from " ++ last_message.author ++ ":\n\n" ++ last_message.content
        let m₁ :=
          if last_message.location ≠ "" then
            "**Location**: `" ++ last_message.location ++ "`\n\n" ++ m₀
          else m₀
        if last_message.code_snippet ≠ "" then
          m₁ ++ "\n\n```\n" ++ last_message.code_snippet ++ "\n```"
        else m₁
      else context
    | none => context
  | none => context

/-- agent_client.py lines 175-181. -/
def quotaErrorMsg : String :=
  "Cursor API quota exhausted or rate limited.\nSolutions:\n- Wait for quota to reset\n- Upgrade your Cursor plan\n- Check API key configuration"

/-- agent_client.py lines 184-190. -/
def authErrorMsg : String :=
  "Cursor authentication failed.\nSolutions:\n- Verify CURSOR_API_KEY environment variable is set\n- Check API key is valid: cursor auth status\n- Re-authenticate: cursor auth login"

/-- agent_client.py lines 193-199. -/
def cliFilesErrorMsg : String :=
  "Cursor CLI or required files not found.\nSolutions:\n- Install Cursor CLI: https://cursor.sh/cli\n- Verify cursor is in PATH: which cursor\n- Check file permissions"

/-- agent_client.py lines 202-205: the raw error attached to the message. -/
def rawCliErrorMsg (error_output work_dir : String) : String :=
  "Cursor CLI error:\n" ++ error_output ++ "\n\nCheck logs for details: " ++ work_dir

/-- agent_client.py lines 213-220. -/
def cliNotFoundMsg (instructions_file : String) : String :=
  "Cursor CLI not found in PATH.\nInstallation required:\n1. Install Cursor: https://cursor.sh\n2. Install CLI: cursor --install-cli\n3. Verify: cursor --version\n4. See instructions: " ++ instructions_file

/-- agent_client.py lines 227-234. -/
def permissionDeniedMsg (work_dir instructions_file : String) : String :=
  "Permission denied when invoking Cursor CLI.\nSolutions:\n- Check file permissions on cursor executable\n- Verify write permissions in work directory\n- Work directory: " ++ work_dir ++ "\n- See instructions: " ++ instructions_file

/-- agent_client.py lines 244-251. -/
def unexpectedErrorMsg (message error_type work_dir instructions_file
    context_file : String) : String :=
  "Unexpected error occurred:\n" ++ message ++ "\n\nError type: " ++ error_type ++ "\nWork directory: " ++ work_dir ++ "\nInstructions: " ++ instructions_file ++ "\nContext: " ++ context_file ++ "\n\nFull traceback saved to logs."

/-- agent_client.py lines 172-205: the `CalledProcessError` substring
classification on the lower-cased error text. -/
def classifyProcessError (error_output work_dir : String) : String :=
  let lo := lowerS error_output
  if containsSub "resource_exhausted" lo then quotaErrorMsg
  else if containsSub "authentication" lo || containsSub "unauthorized" lo then authErrorMsg
  else if containsSub "not found" lo || containsSub "no such file" lo then cliFilesErrorMsg
  else rawCliErrorMsg error_output work_dir

/-- agent_client.py lines 160-259: the create-new-session path with its
exception classification.  `events` is the trace accumulated so far and
`prompt` the combined-prompt file content at this dispatch.  On success the
session id is stored when it is truthy (`if new_session_id:`). -/
def createSessionPath (env : AgentEnv) (tm : TMState) (thread_id prompt
    instructions_file context_file : String) (events : List AgentEvent) : InvokeOut :=
  let events := events ++ [.createAttempt prompt]
  match env.createOutcome with
  | .ok response session_id =>
    let tm₁ := if session_id ≠ "" then store_session_id tm thread_id session_id else tm
    { response := response, status := 0, tm := tm₁, events := events }
  | .calledProcessError error_output =>
    { response := classifyProcessError error_output env.work_dir, status := 1,
      tm := tm, events := events }
  | .fileNotFoundError =>
    { response := cliNotFoundMsg instructions_file, status := 2, tm := tm, events := events }
  | .permissionError =>
    { response := permissionDeniedMsg env.work_dir instructions_file, status := 2,
      tm := tm, events := events }
  | .otherError message error_type =>
    { response := unexpectedErrorMsg message error_type env.work_dir instructions_file
        context_file, status := 2, tm := tm, events := events }

/-- agent_client.py `invoke_agent` (lines 51-259).  A failing branch checkout
returns `(message, 1)` before any dispatch.  `is_new_session` and the
session-presence test both reuse the Python truthiness of
`get_session_id` (an empty stored id counts as no session), so it is collapsed
once here.  When a session exists, the resume attempt is dispatched with the
minimal context; if it raises, the combined prompt is rebuilt from the same
(header-less) instructions and the full context, and the create path runs. -/
def invoke_agent (env : AgentEnv) (tm : TMState) (pr_number : Int)
    (thread_id command context timestamp : String) : InvokeOut :=
  if env.checkoutOk = false then
    { response := "Failed to checkout branch", status := 1, tm := tm, events := [] }
  else
    let session_id : Option String :=
      match get_session_id tm thread_id with
      | some s => if s = "" then none else some s
      | none => none
    let is_new_session := session_id.isNone
    let instructions := build_instructions env pr_number thread_id command is_new_session timestamp
    let instructions_file := env.work_dir ++ "/instructions.md"
    let context_file := env.work_dir ++ "/context.md"
    match session_id with
    | some sid =>
      let prompt₀ := combinedPrompt instructions (contextToUse tm thread_id context)
      match env.resumeOutcome with
      | some response =>
        { response := response, status := 0, tm := tm, events := [.resumeAttempt sid prompt₀] }
      | none =>
        let prompt₁ := combinedPrompt instructions context
        createSessionPath env tm thread_id prompt₁ instructions_file context_file
          [.resumeAttempt sid prompt₀]
    | none =>
      let prompt₀ := combinedPrompt instructions context
      createSessionPath env tm thread_id prompt₀ instructions_file context_file []

/-- appendMessage contract as the specification words it, for comparison with
`add_message`: ok when the thread exists, fails with `NotFound` when it is
absent. -/
def appendMessageSpec (tm : TMState) (thread_id : String) (message : Message) :
    Except String TMState :=
  match load_thread tm thread_id with
  | none => .error "NotFound"
  | some thread => .ok (save_thread tm { thread with messages := thread.messages ++ [message] })

/-! Section: Helper lemmas -/

theorem alookup_aInsert (k : String) (v : α) (l : List (String × α)) :
    alookup k (aInsert k v l) = some v := by
  induction l with
  | nil => simp [aInsert, alookup]
  | cons hd tl ih =>
    obtain ⟨k₁, v₁⟩ := hd
    by_cases hk : k₁ = k <;> simp [aInsert, alookup, hk, ih]

theorem threadValidate_some {t u : Thread} (h : threadValidate t = some u) :
    u = t ∧ validStatus t.status = true ∧
      t.messages.all (fun m => validRole m.role) = true := by
  unfold threadValidate at h
  by_cases hc : (validStatus t.status && t.messages.all fun m => validRole m.role) = true
  · rw [if_pos hc] at h
    obtain ⟨h₁, h₂⟩ := Bool.and_eq_true .. |>.mp hc
    exact ⟨(Option.some_inj.mp h).symm, h₁, h₂⟩
  · rw [if_neg hc] at h
    exact absurd h (by simp)

theorem load_thread_valid {tm : TMState} {tid : String} {t : Thread}
    (h : load_thread tm tid = some t) :
    validStatus t.status = true ∧ t.messages.all (fun m => validRole m.role) = true := by
  unfold load_thread at h
  cases halk : alookup tid tm.files with
  | none => rw [halk] at h; exact absurd h (by simp)
  | some u =>
    rw [halk] at h
    rw [Option.some_bind] at h
    obtain ⟨rfl, h₁, h₂⟩ := threadValidate_some h
    exact ⟨h₁, h₂⟩

theorem load_thread_save (tm : TMState) (t : Thread) :
    load_thread (save_thread tm t) t.thread_id = threadValidate t := by
  simp [load_thread, save_thread, alookup_aInsert]

/-! Section: C1 -/

/-- A valid thread record for the parent comment of the C1 scenario. -/
def c1ThreadT : Thread := { thread_id := "T", pr_number := 5 }

/-- A state in which parent comment 100 is mapped to thread "T" and the "T"
record is present and loadable. -/
def c1tm : TMState :=
  { files := [("T", c1ThreadT)], comment_to_thread := [("100", "T")],
    threads := [("T", ⟨5, 0, "active"⟩)] }

/-- C1: the claim says resolving the thread for a reply whose parent comment
100 is mapped to thread T returns T and never creates a new thread.  The code
cannot do this: `get_or_create_thread` takes only `pr_number` and
`comment_id` (no parent parameter) and never consults any parent mapping, so
for the unmapped reply comment 200 it allocates a fresh thread instead of
returning "T" — and the call site (daemon.py line 142) passes it a third
argument read from the nonexistent `Comment.in_reply_to_id` field, so
`process_comment` in fact raises before any thread is resolved. -/
theorem c1_code_evaluation :
    (get_or_create_thread c1tm 5 200 999).1.thread_id = "pr-5-thread-999" ∧
    (get_or_create_thread c1tm 5 200 999).1.thread_id ≠ "T" ∧
    alookup "200" (get_or_create_thread c1tm 5 200 999).2.1.comment_to_thread =
      some "pr-5-thread-999" ∧
    load_thread c1tm "T" = some c1ThreadT := by decide

/-! Section: C3 -/

/-- C3: once `set_thread_status` writes the out-of-model status "pending"
(the MANUAL_INTERVENTION outcome) to the thread file, `Thread(**data)`
validation rejects the record, so every later `load_thread` of that id —
including after a restart, which reads the same files — returns `None`, making
the stored session id and message history unreachable through `load_thread`. -/
theorem c3_pending_makes_thread_unloadable (tm : TMState) (thread_id : String)
    (t : Thread) (h₁ : load_thread tm thread_id = some t)
    (h₂ : t.thread_id = thread_id) :
    load_thread (set_thread_status tm thread_id "pending") thread_id = none := by
  unfold set_thread_status
  rw [h₁]
  have hfile : load_thread (save_thread tm { t with status := "pending" }) thread_id = none := by
    simp only [load_thread, save_thread]
    rw [h₂, alookup_aInsert, Option.some_bind]
    simp [threadValidate, validStatus]
  cases halk : alookup thread_id (save_thread tm { t with status := "pending" }).threads with
  | none => simpa [halk] using hfile
  | some meta =>
    simp only [halk]
    simpa [load_thread] using hfile

/-- Concrete state for the C3 witness: one loadable active thread "t1". -/
def c3tm : TMState := { files := [("t1", { thread_id := "t1", pr_number := 7 })] }

/-- C3 witness: the hypotheses hold at a concrete state and the conclusion
evaluates there. -/
theorem c3_witness :
    load_thread c3tm "t1" = some { thread_id := "t1", pr_number := 7 } ∧
    load_thread (set_thread_status c3tm "t1" "pending") "t1" = none :=
  ⟨by decide,
    c3_pending_makes_thread_unloadable c3tm "t1" { thread_id := "t1", pr_number := 7 }
      (by decide) (by decide)⟩

/-! Section: C6 -/

/-- The comment-to-thread mapping committed by the first write of the C6
scenario. -/
def c6cmap : List (String × String) := [("111", "pr-5-thread-1000")]

/-- The thread-status snapshot committed by the first write of the C6
scenario. -/
def c6tidx : List (String × ThreadMeta) := [("pr-5-thread-1000", ⟨5, 1000, "active"⟩)]

/-- The thread record committed by the second write of the C6 scenario. -/
def c6thread : Thread :=
  { thread_id := "pr-5-thread-1000", pr_number := 5, created_at := 1000 }

/-- C6 counterexample: creating a thread for unmapped comment 111 emits the
automation-state write (which commits the comment-to-thread index) FIRST and
the thread-record write second — the claim asserts the opposite order — and
replaying only the first write yields a store whose index maps the comment
while the thread record is missing, exactly the in-between state the claim says
is unreachable. -/
theorem c6_counterexample :
    (get_or_create_thread tmEmpty 5 111 1000).2.2 =
      [WriteEvent.stateWrite c6cmap c6tidx, WriteEvent.threadWrite c6thread] ∧
    alookup "111"
        (tmAfterWrites tmEmpty [WriteEvent.stateWrite c6cmap c6tidx]).comment_to_thread =
      some "pr-5-thread-1000" ∧
    load_thread (tmAfterWrites tmEmpty [WriteEvent.stateWrite c6cmap c6tidx])
      "pr-5-thread-1000" = none := by decide

/-- C6 amended: when a new thread is created for an unmapped comment, the
comment-to-thread index mapping is committed (via `_save_state`) BEFORE the
thread record is written, so the reachable in-between state after a crash between
the two writes is an index entry whose thread record is missing
(index-without-record), not record-without-index. -/
theorem c6_amended (tm : TMState) (pr_number comment_id : Int) (now : Nat)
    (h₁ : get_thread_for_comment tm comment_id = none)
    (h₂ : alookup (newThreadId pr_number now) tm.files = none) :
    ∃ cmap tidx thread,
      (get_or_create_thread tm pr_number comment_id now).2.2 =
        [WriteEvent.stateWrite cmap tidx, WriteEvent.threadWrite thread] ∧
      alookup (toString comment_id)
          (applyWrite tm (WriteEvent.stateWrite cmap tidx)).comment_to_thread =
        some (newThreadId pr_number now) ∧
      load_thread (applyWrite tm (WriteEvent.stateWrite cmap tidx))
        (newThreadId pr_number now) = none := by
  refine ⟨aInsert (toString comment_id) (newThreadId pr_number now) tm.comment_to_thread,
    aInsert (newThreadId pr_number now) ⟨pr_number, now, "active"⟩ tm.threads,
    { thread_id := newThreadId pr_number now, pr_number := pr_number, created_at := now },
    ?_, ?_, ?_⟩
  · simp [get_or_create_thread, h₁]
  · simp [applyWrite, alookup_aInsert]
  · simp [applyWrite, load_thread, h₂]

/-- C6 amended witness: hypotheses discharged at the empty state. -/
theorem c6_amended_witness :
    ∃ cmap tidx thread,
      (get_or_create_thread tmEmpty 9 42 77).2.2 =
        [WriteEvent.stateWrite cmap tidx, WriteEvent.threadWrite thread] ∧
      alookup "42" (applyWrite tmEmpty (WriteEvent.stateWrite cmap tidx)).comment_to_thread =
        some (newThreadId 9 77) ∧
      load_thread (applyWrite tmEmpty (WriteEvent.stateWrite cmap tidx)) (newThreadId 9 77) =
        none :=
  c6_amended tmEmpty 9 42 77 (by decide) (by decide)

/-! Section: C7 -/

/-- C7 counterexample: two distinct comments (ids 111 and 222) on the same PR
5, resolved at the same `int(time.time())` value 1000, are both assigned the
thread id "pr-5-thread-1000" — newly allocated thread ids are not globally
unique. -/
theorem c7_counterexample :
    (get_or_create_thread tmEmpty 5 111 1000).1.thread_id =
      (get_or_create_thread (get_or_create_thread tmEmpty 5 111 1000).2.1
        5 222 1000).1.thread_id ∧
    (111 : Int) ≠ 222 := by decide

/-- C7 amended: a newly allocated thread id is determined by the PR number and
the second-resolution timestamp alone, so two comments on the same PR
processed at the same time value collide; once a comment is mapped and its
record loads, a second resolution of the same comment returns the same thread
with no writes. -/
theorem c7_amended :
    (∀ tm₁ tm₂ : TMState, ∀ pr_number c₁ c₂ : Int, ∀ now : Nat,
      get_thread_for_comment tm₁ c₁ = none → get_thread_for_comment tm₂ c₂ = none →
      (get_or_create_thread tm₁ pr_number c₁ now).1.thread_id =
        (get_or_create_thread tm₂ pr_number c₂ now).1.thread_id) ∧
    (∀ tm : TMState, ∀ pr_number comment_id : Int, ∀ now : Nat, ∀ tid : String, ∀ t : Thread,
      get_thread_for_comment tm comment_id = some tid → tid ≠ "" →
      load_thread tm tid = some t →
      get_or_create_thread tm pr_number comment_id now = (t, tm, [])) := by
  constructor
  · intro tm₁ tm₂ pr_number c₁ c₂ now h₁ h₂
    simp [get_or_create_thread, h₁, h₂]
  · intro tm pr_number comment_id now tid t h₁ h₂ h₃
    simp [get_or_create_thread, h₁, h₂, h₃]

/-- C7 amended witness: both conjuncts applied at concrete inputs. -/
theorem c7_amended_witness :
    (get_or_create_thread tmEmpty 5 111 1000).1.thread_id =
      (get_or_create_thread tmEmpty 5 222 1000).1.thread_id ∧
    get_or_create_thread c1tm 5 100 1000 = (c1ThreadT, c1tm, []) :=
  ⟨c7_amended.1 tmEmpty tmEmpty 5 111 222 1000 (by decide) (by decide),
    c7_amended.2 c1tm 5 100 1000 "T" c1ThreadT (by decide) (by decide) (by decide)⟩

/-! Section: C2 -/

/-- C2 counterexample: for a MANUAL_INTERVENTION outcome (status 2) on
comment 123, the dispatch trace DOES contain the rocket (fully handled)
reaction on the original comment — daemon.py line 290 — while the claim says
that marker is not added. -/
theorem c2_counterexample :
    GhAction.addReaction 123 "issue" "rocket" ∈
      handle_outcome 5 ⟨123, "issue"⟩ "t1" 2 (some 456) := by decide

/-- C2 amended: for every comment whose invocation ends in
MANUAL_INTERVENTION (status 2), the loop adds the confused reaction AND the
rocket (fully handled) marker to the original comment, in addition to the
eyes (seen) marker added before invocation — so `has_processed_reactions`
subsequently reports the comment as fully processed and it is not picked up
again — and the thread status is set to "pending". -/
theorem c2_amended (pr_number : Int) (c : CommentLite) (thread_id : String)
    (posted_id : Option Int) :
    GhAction.addReaction c.id c.ctype "rocket" ∈
      handle_outcome pr_number c thread_id 2 posted_id ∧
    GhAction.addReaction c.id c.ctype "confused" ∈
      handle_outcome pr_number c thread_id 2 posted_id ∧
    GhAction.setStatusAction thread_id "pending" ∈
      handle_outcome pr_number c thread_id 2 posted_id ∧
    has_processed_reactions
      (reactionsOnComment c
        (seenReactionAction c :: handle_outcome pr_number c thread_id 2 posted_id)) = true := by
  refine ⟨?_, ?_, ?_, ?_⟩
  · cases posted_id <;>
      simp [handle_outcome, botCommentReactions, postAction]
  · cases posted_id <;>
      simp [handle_outcome, botCommentReactions, postAction]
  · cases posted_id <;>
      simp [handle_outcome, botCommentReactions, postAction]
  · cases posted_id with
    | none =>
      by_cases hty : c.ctype = "review" <;>
        simp [handle_outcome, botCommentReactions, postAction, reactionsOnComment,
          seenReactionAction, has_processed_reactions, hty]
    | some pid =>
      by_cases hty : c.ctype = "review" <;>
        by_cases hpid : pid = c.id <;>
          simp [handle_outcome, botCommentReactions, postAction, reactionsOnComment,
            seenReactionAction, has_processed_reactions, hty, hpid]

/-! Section: C8 -/

theorem load_thread_add_message (tm : TMState) (thread_id : String) (t : Thread)
    (m : Message) (h₁ : load_thread tm thread_id = some t)
    (h₂ : t.thread_id = thread_id) (h₃ : validRole m.role = true) :
    load_thread (add_message tm thread_id m) thread_id =
      some { t with messages := t.messages ++ [m] } ∧
    ({ t with messages := t.messages ++ [m] } : Thread).thread_id = thread_id := by
  have hv := load_thread_valid h₁
  refine ⟨?_, h₂⟩
  unfold add_message
  rw [h₁]
  simp only [load_thread, save_thread]
  rw [h₂, alookup_aInsert, Option.some_bind]
  simp [threadValidate, List.all_append, hv.1, hv.2, h₃]

/-- A message whose role is valid, for the C8 concrete scenarios. -/
def c8msg : Message := { role := "user", author := "reviewer", content := "hello" }

/-- C8 counterexample: on the empty store the spec contract
(`appendMessageSpec`, following the words of the specification) fails with
`NotFound` for thread "t1", but the code (`add_message`, thread_manager.py
lines 160-175) merely logs and returns normally with the state unchanged — no
NotFound failure reaches the caller. -/
theorem c8_counterexample :
    appendMessageSpec tmEmpty "t1" c8msg = Except.error "NotFound" ∧
    add_message tmEmpty "t1" c8msg = tmEmpty := ⟨rfl, rfl⟩

/-- C8 amended: when the target thread is absent, `add_message` logs an error
and returns with no effect (no NotFound error is raised to the caller); when
the thread exists, each message is appended and persisted immediately, and
appending N messages then reloading yields exactly those N messages appended
in order, with the pre-existing messages and each appended message unchanged. -/
theorem c8_amended (tm : TMState) (thread_id : String) (t : Thread)
    (msgs : List Message) (h₁ : load_thread tm thread_id = some t)
    (h₂ : t.thread_id = thread_id) (h₃ : ∀ m ∈ msgs, validRole m.role = true) :
    load_thread (addAllMessages tm thread_id msgs) thread_id =
      some { t with messages := t.messages ++ msgs } ∧
    (∀ tm₁ : TMState, ∀ tid₁ : String, ∀ m₁ : Message,
      load_thread tm₁ tid₁ = none → add_message tm₁ tid₁ m₁ = tm₁) := by
  refine ⟨?_, fun tm₁ tid₁ m₁ habs => by simp [add_message, habs]⟩
  induction msgs generalizing tm t with
  | nil =>
    simp only [addAllMessages, List.foldl_nil]
    simpa using h₁
  | cons m ms ih =>
    have hm : validRole m.role = true := h₃ m (List.mem_cons_self m ms)
    have step := load_thread_add_message tm thread_id t m h₁ h₂ hm
    have tail := ih (add_message tm thread_id m) { t with messages := t.messages ++ [m] }
      step.1 step.2 (fun x hx => h₃ x (List.mem_cons_of_mem m hx))
    simp only [addAllMessages, List.foldl_cons] at tail ⊢
    simpa [List.append_assoc] using tail

/-- A loadable thread for the C8 witness. -/
def c8t : Thread := { thread_id := "t8", pr_number := 3 }

/-- Store holding the C8 witness thread. -/
def c8tm : TMState := { files := [("t8", c8t)] }

/-- C8 amended witness: the theorem applied at a one-message concrete
scenario. -/
theorem c8_witness :
    load_thread (addAllMessages c8tm "t8" [c8msg]) "t8" =
      some { c8t with messages := c8t.messages ++ [c8msg] } ∧
    (∀ tm₁ : TMState, ∀ tid₁ : String, ∀ m₁ : Message,
      load_thread tm₁ tid₁ = none → add_message tm₁ tid₁ m₁ = tm₁) :=
  c8_amended c8tm "t8" c8t [c8msg] (by decide) (by decide) (by decide)

/-! Section: C4 -/

theorem get_session_id_store (tm : TMState) (thread_id : String) (t : Thread)
    (s : String) (h₁ : load_thread tm thread_id = some t)
    (h₂ : t.thread_id = thread_id) :
    get_session_id (store_session_id tm thread_id s) thread_id = some s := by
  have hv := load_thread_valid h₁
  unfold store_session_id
  rw [h₁]
  simp only [get_session_id, load_thread, save_thread]
  rw [h₂, alookup_aInsert, Option.some_bind]
  simp [threadValidate, hv.1, hv.2]

/-- The thread of the C4 scenario, with a stored session id. -/
def c4t : Thread := { thread_id := "t1", pr_number := 5, cursor_session_id := some "sid-old" }

/-- Store holding the C4 thread. -/
def c4tm : TMState := { files := [("t1", c4t)] }

/-- C4 environment: both templates exist (the header template content is the
sentinel "HEADERMARK"), checkout succeeds, the resume attempt raises, and the
fallback create-session succeeds with a fresh id. -/
def c4env : AgentEnv :=
  { templates := [("instructions-header.md", "HEADERMARK"), ("instructions-ask.md", "ASKBODY")],
    checkoutOk := true, resumeOutcome := none, createOutcome := .ok "resp" "sid-new" }

/-- The C4 invocation result. -/
def c4out : InvokeOut := invoke_agent c4env c4tm 5 "t1" "ask" "FULLCTX" "ts"

/-- C4 counterexample: with a stored session id and a failing resume attempt,
the fallback prompt of the new-session dispatch does NOT contain the
instruction-header template content ("HEADERMARK") — the instructions were
built with `is_new_session = False` and are reused as-is for the fallback
(agent_client.py line 157) — although the same header is present whenever the
instructions are built for a new session.  The claim says the fallback
re-includes the header. -/
theorem c4_counterexample :
    c4out.events =
      [AgentEvent.resumeAttempt "sid-old" (combinedPrompt "ASKBODY" "FULLCTX"),
        AgentEvent.createAttempt (combinedPrompt "ASKBODY" "FULLCTX")] ∧
    containsSub "HEADERMARK"
      (promptOfEvent (c4out.events.getD 1 (AgentEvent.createAttempt ""))) = false ∧
    containsSub "HEADERMARK" (build_instructions c4env 5 "t1" "ask" true "ts") = true := by
  decide

/-- C4 amended: for every invocation on a thread with a (truthy) stored
session id, resume is attempted first; if the resume attempt fails, a
brand-new session is created using the full context document (never the
minimal one) and the new session id overwrites the stored one — but the
fallback prompt reuses the instructions that were built for the resumed
session, which omit the instruction header (the header is included only when
no session id was stored). -/
theorem c4_amended (env : AgentEnv) (tm : TMState) (pr_number : Int)
    (thread_id command context timestamp : String) (t : Thread)
    (sid response new_sid : String)
    (h₀ : env.checkoutOk = true)
    (h₁ : load_thread tm thread_id = some t)
    (h₂ : t.thread_id = thread_id)
    (h₃ : t.cursor_session_id = some sid)
    (h₄ : sid ≠ "")
    (h₅ : env.resumeOutcome = none)
    (h₆ : env.createOutcome = .ok response new_sid)
    (h₇ : new_sid ≠ "") :
    (invoke_agent env tm pr_number thread_id command context timestamp).events =
      [AgentEvent.resumeAttempt sid
          (combinedPrompt (build_instructions env pr_number thread_id command false timestamp)
            (contextToUse tm thread_id context)),
        AgentEvent.createAttempt
          (combinedPrompt (build_instructions env pr_number thread_id command false timestamp)
            context)] ∧
    get_session_id (invoke_agent env tm pr_number thread_id command context timestamp).tm
      thread_id = some new_sid ∧
    (invoke_agent env tm pr_number thread_id command context timestamp).status = 0 := by
  have hsid : get_session_id tm thread_id = some sid := by
    simp [get_session_id, h₁, h₃]
  have hmain : invoke_agent env tm pr_number thread_id command context timestamp =
      { response := response, status := 0, tm := store_session_id tm thread_id new_sid,
        events :=
          [AgentEvent.resumeAttempt sid
              (combinedPrompt
                (build_instructions env pr_number thread_id command false timestamp)
                (contextToUse tm thread_id context)),
            AgentEvent.createAttempt
              (combinedPrompt
                (build_instructions env pr_number thread_id command false timestamp)
                context)] } := by
    simp [invoke_agent, h₀, hsid, h₄, h₅, h₆, createSessionPath, h₇]
  rw [hmain]
  exact ⟨rfl, get_session_id_store tm thread_id t new_sid h₁ h₂, rfl⟩

/-- C4 amended witness: the theorem applied at the concrete C4 scenario. -/
theorem c4_witness : get_session_id c4out.tm "t1" = some "sid-new" :=
  (c4_amended c4env c4tm 5 "t1" "ask" "FULLCTX" "ts" c4t "sid-old" "resp" "sid-new"
    rfl (by decide) rfl rfl (by decide) rfl rfl (by decide)).2.1

/-! Section: C5 -/

/-- An agent environment whose create-session path has the given outcome
(used by the C5 scenarios). -/
def c5env (co : CreateOutcome) : AgentEnv :=
  { createOutcome := co, templates := [("instructions-ask.md", "ASKBODY")] }

/-- C5 counterexample: an assistant-subprocess failure that is neither a
`CalledProcessError`, a `FileNotFoundError` nor a `PermissionError` — the
catch-all branch of agent_client.py lines 238-259 — returns
MANUAL_INTERVENTION (status 2), not the FAILURE (status 1) the claim assigns
to "every other failure". -/
theorem c5_counterexample :
    (invoke_agent (c5env (.otherError "boom" "ValueError")) tmEmpty 5 "t" "ask" "C" "ts").status
        = 2 ∧
    (invoke_agent (c5env (.otherError "boom" "ValueError")) tmEmpty 5 "t" "ask" "C" "ts").status
        ≠ 1 := by decide

/-- C5 amended: the outcome of a failed create-session dispatch is classified
by the exception type first — every `CalledProcessError` (the subprocess
exiting nonzero) yields FAILURE (status 1), with a quota remediation message
when the error text mentions resource exhaustion and with the raw error
attached when no known substring matches, while `FileNotFoundError` (CLI not
installed), `PermissionError`, and every other unexpected exception yield
MANUAL_INTERVENTION (status 2). -/
theorem c5_amended (env : AgentEnv) (tm : TMState) (pr_number : Int)
    (thread_id command context timestamp : String)
    (h₀ : env.checkoutOk = true)
    (h₁ : get_session_id tm thread_id = none) :
    (∀ e, env.createOutcome = .calledProcessError e →
      (invoke_agent env tm pr_number thread_id command context timestamp).status = 1 ∧
      (invoke_agent env tm pr_number thread_id command context timestamp).response =
        classifyProcessError e env.work_dir) ∧
    (∀ e, env.createOutcome = .calledProcessError e →
      containsSub "resource_exhausted" (lowerS e) = true →
      (invoke_agent env tm pr_number thread_id command context timestamp).response =
        quotaErrorMsg) ∧
    (env.createOutcome = .fileNotFoundError →
      (invoke_agent env tm pr_number thread_id command context timestamp).status = 2) ∧
    (env.createOutcome = .permissionError →
      (invoke_agent env tm pr_number thread_id command context timestamp).status = 2) ∧
    (∀ msg ty, env.createOutcome = .otherError msg ty →
      (invoke_agent env tm pr_number thread_id command context timestamp).status = 2) ∧
    (∀ e, env.createOutcome = .calledProcessError e →
      containsSub "resource_exhausted" (lowerS e) = false →
      containsSub "authentication" (lowerS e) = false →
      containsSub "unauthorized" (lowerS e) = false →
      containsSub "not found" (lowerS e) = false →
      containsSub "no such file" (lowerS e) = false →
      (invoke_agent env tm pr_number thread_id command context timestamp).response =
        rawCliErrorMsg e env.work_dir) := by
  have hmain : invoke_agent env tm pr_number thread_id command context timestamp =
      createSessionPath env tm thread_id
        (combinedPrompt (build_instructions env pr_number thread_id command true timestamp)
          context)
        (env.work_dir ++ "/instructions.md") (env.work_dir ++ "/context.md") [] := by
    simp [invoke_agent, h₀, h₁]
  refine ⟨?_, ?_, ?_, ?_, ?_, ?_⟩
  · intro e he
    rw [hmain]
    simp [createSessionPath, he]
  · intro e he hq
    rw [hmain]
    simp [createSessionPath, he, classifyProcessError, hq]
  · intro he
    rw [hmain]
    simp [createSessionPath, he]
  · intro he
    rw [hmain]
    simp [createSessionPath, he]
  · intro msg ty he
    rw [hmain]
    simp [createSessionPath, he]
  · intro e he hq ha hu hn hs
    rw [hmain]
    simp [createSessionPath, he, classifyProcessError, hq, ha, hu, hn, hs]

/-- C5 amended witness: the theorem applied at the concrete missing-CLI
scenario. -/
theorem c5_witness :
    (invoke_agent (c5env CreateOutcome.fileNotFoundError) tmEmpty 5 "t" "ask" "C" "ts").status
      = 2 :=
  (c5_amended (c5env .fileNotFoundError) tmEmpty 5 "t" "ask" "C" "ts" rfl rfl).2.2.1 rfl

/-! Section: C9 -/

/-- C9: `parse_command` maps the four sample bodies as claimed, and in
general: a `plan` token after a mention (the regex `@\w+\s+plan` on the
lower-cased body) yields "plan"; otherwise a `fix` or `implement` token after
a mention yields "implement"; everything else — including a bare mention or no
mention at all — yields "ask". -/
theorem c9_parse_command :
    parse_command "@bot plan do X" = "plan" ∧
    parse_command "@bot fix it" = "implement" ∧
    parse_command "@bot what is this" = "ask" ∧
    parse_command "just a question" = "ask" ∧
    (∀ body : String, searchMention ["plan"] (lowerS body).data = true →
      parse_command body = "plan") ∧
    (∀ body : String, searchMention ["plan"] (lowerS body).data = false →
      searchMention ["fix", "implement"] (lowerS body).data = true →
      parse_command body = "implement") ∧
    (∀ body : String, searchMention ["plan"] (lowerS body).data = false →
      searchMention ["fix", "implement"] (lowerS body).data = false →
      parse_command body = "ask") := by
  refine ⟨by decide, by decide, by decide, by decide, ?_, ?_, ?_⟩
  · intro body h
    simp [parse_command, h]
  · intro body h₁ h₂
    simp [parse_command, h₁, h₂]
  · intro body h₁ h₂
    simp [parse_command, h₁, h₂]

/-- C9 witness: the general clauses applied at concrete bodies. -/
theorem c9_witness :
    parse_command "@reviewer plan the refactor" = "plan" ∧
    parse_command "@reviewer fix the bug" = "implement" ∧
    parse_command "@reviewer" = "ask" :=
  ⟨c9_parse_command.2.2.2.2.1 "@reviewer plan the refactor" (by decide),
    c9_parse_command.2.2.2.2.2.1 "@reviewer fix the bug" (by decide) (by decide),
    c9_parse_command.2.2.2.2.2.2 "@reviewer" (by decide) (by decide)⟩

/-! Section: C10 -/

theorem scanDecl_nearest (lines : List String) (n : Nat) :
    (scanDecl lines n = "" ∧
      ∀ i, i ≤ n → declMatches (stripS (lines.getD i "")).data = false) ∨
    (∃ i, i ≤ n ∧ scanDecl lines n = stripS (lines.getD i "") ∧
      declMatches (stripS (lines.getD i "")).data = true ∧
      ∀ j, i < j → j ≤ n → declMatches (stripS (lines.getD j "")).data = false) := by
  induction n with
  | zero =>
    cases h : declMatches (stripS (lines.getD 0 "")).data with
    | true =>
      right
      refine ⟨0, Nat.le_refl 0, by simp only [scanDecl]; rw [h]; simp, h, ?_⟩
      intro j hj₁ hj₂
      omega
    | false =>
      left
      refine ⟨by simp only [scanDecl]; rw [h]; simp, ?_⟩
      intro i hi
      rw [Nat.le_zero.mp hi]
      exact h
  | succ n ih =>
    cases h : declMatches (stripS (lines.getD (n + 1) "")).data with
    | true =>
      right
      refine ⟨n + 1, Nat.le_refl _, by simp only [scanDecl]; rw [h]; simp, h, ?_⟩
      intro j hj₁ hj₂
      omega
    | false =>
      have hstep : scanDecl lines (n + 1) = scanDecl lines n := by
        simp only [scanDecl]
        rw [h]
        simp
      cases ih with
      | inl hcase =>
        left
        refine ⟨hstep.trans hcase.1, ?_⟩
        intro i hi
        rcases Nat.lt_or_ge i (n + 1) with hlt | hge
        · exact hcase.2 i (Nat.lt_succ_iff.mp hlt)
        · rw [Nat.le_antisymm hi hge]
          exact h
      | inr hcase =>
        obtain ⟨i, hi₁, hi₂, hi₃, hi₄⟩ := hcase
        right
        refine ⟨i, Nat.le_succ_of_le hi₁, hstep.trans hi₂, hi₃, ?_⟩
        intro j hj₁ hj₂
        rcases Nat.lt_or_ge j (n + 1) with hlt | hge
        · exact hi₄ j hj₁ (Nat.lt_succ_iff.mp hlt)
        · rw [Nat.le_antisymm hj₂ hge]
          exact h

/-- C10: on a 12-line file with target line 7 and context window 3,
`extract_code_snippet` renders exactly the (1-based) lines 4 through 10 — the
0-based indices 3 through 9 — each formatted with its line number and with the
marker exactly on line 7, and reports as the enclosing declaration the nearest
line at or before the target matching the declaration pattern (empty when none
matches); for every path not in the file system it returns the pair of empty
strings rather than an error. -/
theorem c10_extract (fs : List (String × List String)) (file_path : String)
    (lines : List String) (h₁ : alookup file_path fs = some lines)
    (h₂ : lines.length = 12) :
    extract_code_snippet fs file_path 7 3 =
      (String.intercalate "\n" ([3, 4, 5, 6, 7, 8, 9].map (fmtLine lines 7)),
        scanDecl lines 6) ∧
    (∀ i ∈ [3, 4, 5, 6, 7, 8, 9], fmtLine lines 7 i =
      pad3 (i + 1) ++ "|" ++ (if i = 6 then snippetMarker else "   ") ++
        rstripS (lines.getD i "")) ∧
    ((scanDecl lines 6 = "" ∧
        ∀ i, i ≤ 6 → declMatches (stripS (lines.getD i "")).data = false) ∨
      (∃ i, i ≤ 6 ∧ scanDecl lines 6 = stripS (lines.getD i "") ∧
        declMatches (stripS (lines.getD i "")).data = true ∧
        ∀ j, i < j → j ≤ 6 → declMatches (stripS (lines.getD j "")).data = false)) ∧
    (∀ q, alookup q fs = none →
      ∀ ln cl : Int, extract_code_snippet fs q ln cl = ("", "")) := by
  refine ⟨?_, ?_, scanDecl_nearest lines 6, ?_⟩
  · unfold extract_code_snippet
    rw [h₁]
    have ht : (lines.length : Int) = 12 := by rw [h₂]; rfl
    simp only [ht]
    norm_num
    have hr : (List.range (7 : Nat)).map (fun k => 3 + k) = [3, 4, 5, 6, 7, 8, 9] := by
      decide
    constructor
    · show "\n".intercalate (List.map (fmtLine lines 7 ∘ fun k => 3 + k) (List.range 7)) = _
      rw [← List.map_map, hr]
      rfl
    · rfl
  · intro i hi
    fin_cases hi <;> rfl
  · intro q hq ln cl
    simp [extract_code_snippet, hq]

/-- The 12-line Swift-flavoured file of the C10 witness. -/
def c10lines : List String :=
  ["import Foundation", "", "class Greeter", "    let name: String", "",
    "    func greet()", "        print(name)", "        return", "", "func main()",
    "    Greeter().greet()", ""]

/-- File system holding the C10 witness file. -/
def c10fs : List (String × List String) := [("Sources/Greeter.swift", c10lines)]

/-- C10 witness: the theorem applied to a concrete 12-line file; the scan
finds the `func greet()` declaration line nearest above line 7. -/
theorem c10_witness :
    extract_code_snippet c10fs "Sources/Greeter.swift" 7 3 =
      (String.intercalate "\n" ([3, 4, 5, 6, 7, 8, 9].map (fmtLine c10lines 7)),
        scanDecl c10lines 6) ∧
    scanDecl c10lines 6 = "func greet()" :=
  ⟨(c10_extract c10fs "Sources/Greeter.swift" c10lines (by decide) (by decide)).1,
    by decide⟩

end CursorAutomation
